import Mathlib

/-!
Verification of the sequential research-to-blog pipeline in
`src/research_blog_orchestrator.py` and the LangChain adapter in
`src/langchain_blog_agent.py`, as a shallow embedding in Lean 4.

Python values that the duck-typed unwrapping code inspects are modelled by
`PyValue`; a raised exception is modelled by the `Except.error` branch of an
agent's behaviour; Python dictionaries of string keys are modelled as
association lists.
-/

/-- A Python value as seen by the duck-typed code of the orchestrator: a plain
string, `None`, or an object that may expose `text`, `content` and `metadata`
attributes (`hasattr(x, 'text')` holds iff the `text` field is `some`).
`repr` is the value of `str(x)` for the object. -/
inductive PyValue where
  | str (s : String)
  | none
  | obj (text : Option String) (content : Option String)
        (metadata : Option (List (String × String))) (repr : String)
deriving DecidableEq, Repr

/-- Helper `extract_content` nested in
`ResearchToBlogOrchestrator.create_blog_from_topic`
(`research_blog_orchestrator.py` lines 217-227): `None` maps to
`"No content generated"`, a string to itself, then the `text` attribute is
tried, then `content`, else `str(result)`. -/
def extract_content : PyValue → String
  | .none => "No content generated"
  | .str s => s
  | .obj t c _ r =>
    match t with
    | some s => s
    | Option.none =>
      match c with
      | some s => s
      | Option.none => r

/-- Helper `extract_metadata` nested in
`ResearchToBlogOrchestrator.create_blog_from_topic`
(`research_blog_orchestrator.py` lines 230-234): `None` and strings map to
the empty dict, otherwise `getattr(result, 'metadata', \x7b\x7d)`. -/
def extract_metadata : PyValue → List (String × String)
  | .none => []
  | .str _ => []
  | .obj _ _ m _ => m.getD []

/-- The attribute-probing chain of `SequentialWorkflow.run` used in the
`get_response` branch (`research_blog_orchestrator.py` lines 40-45):
`content` is tried first, then `text`, else `str(result)`; a value that is
already a string is kept. -/
def unwrapContentFirst : PyValue → String
  | .str s => s
  | .none => "None"
  | .obj t c _ r =>
    match c with
    | some s => s
    | Option.none => t.getD r

/-- The attribute-probing chain of `SequentialWorkflow.run` used in the
`run`/`sync_run` branches and for `research_content`
(`research_blog_orchestrator.py` lines 49-54, 58-63, 67-72 and 83-88):
`text` is tried first, then `content`, else `str(result)`. -/
def unwrapTextFirst : PyValue → String
  | .str s => s
  | .none => "None"
  | .obj t c _ r =>
    match t with
    | some s => s
    | Option.none => c.getD r

/-- Which branch of the `if`/`elif` dispatch in `SequentialWorkflow.run`
(lines 36-75) fires for an agent, determined by the agent's shape
(`hasattr`/`iscoroutinefunction` probes). -/
inductive AgentKind where
  | asyncGetResponse
  | asyncRun
  | syncRun
  | plainRun
  | callable
deriving DecidableEq, Repr

/-- An agent as the workflow sees it: its dispatch shape plus its behaviour,
a function from the input string to either a raised exception
(`Except.error`, carrying `str(e)`) or a returned raw value. -/
structure Agent where
  kind : AgentKind
  behavior : String → Except String PyValue

/-- The value stored into `results` for one stage: the raw return value of
the agent call passed through the branch-specific attribute-probing chain
(`research_blog_orchestrator.py` lines 36-75). The bare-callable fallback
branch (line 75) stores the raw value unchanged. -/
def unwrapResult (k : AgentKind) (raw : PyValue) : PyValue :=
  match k with
  | .asyncGetResponse => .str (unwrapContentFirst raw)
  | .asyncRun => .str (unwrapTextFirst raw)
  | .syncRun => .str (unwrapTextFirst raw)
  | .plainRun => .str (unwrapTextFirst raw)
  | .callable => raw

/-- One stage of `SequentialWorkflow.run`: invoke the agent on the input and
unwrap the result, propagating a raised exception. -/
def runStep (a : Agent) (input : String) : Except String PyValue :=
  match a.behavior input with
  | .error e => .error e
  | .ok raw => .ok (unwrapResult a.kind raw)

/-- Text before the `\x7bresearch_content\x7d` substitution in the f-string of
`research_blog_orchestrator.py` lines 90-94 (16-space indentation as in the
source). -/
def promptHead : String :=
  "\n                Transform the following research content into an engaging blog post:\n                \n                Research Content:\n                "

/-- Text after the `\x7bresearch_content\x7d` substitution in the f-string of
`research_blog_orchestrator.py` lines 95-105. -/
def promptTail : String :=
  "\n                \n                Requirements:\n                - Create a compelling headline and introduction\n                - Use clear section headers and structure\n                - Include practical examples and applications\n                - Make complex concepts accessible\n                - Ensure proper markdown formatting\n                - Conclude with key takeaways and next steps\n                \n                Create a complete, publication-ready blog post.\n                "

/-- The f-string of `research_blog_orchestrator.py` lines 90-105 as a function
of `research_content`. -/
def blogPromptTemplate (research_content : String) : String :=
  promptHead ++ research_content ++ promptTail

/-- The loop of `SequentialWorkflow.run` (lines 32-105), instrumented to
record, for each completed stage, the pair (input the stage was invoked on,
value appended to `results`). `n` is `len(self.agents)`, `i` the loop index,
`input` the running `current_input`. After stage 0, when `n > 1`,
`current_input` is replaced by the blog prompt template applied to
`research_content` (the text-first unwrapping of the stored result, lines
82-88); no other stage updates `current_input`. A raised exception aborts
the loop (there is no `try`/`except` in `run`). -/
def runTraceAux (n : Nat) : List Agent → Nat → String → Except String (List (String × PyValue))
  | [], _, _ => .ok []
  | a :: rest, i, input =>
    match runStep a input with
    | .error e => .error e
    | .ok result =>
      match runTraceAux n rest (i + 1)
          (if i = 0 ∧ 1 < n then blogPromptTemplate (unwrapTextFirst result)
           else input) with
      | .error e => .error e
      | .ok tr => .ok ((input, result) :: tr)

/-- `SequentialWorkflow.run`, with each stage's input recorded alongside its
stored result. -/
def SequentialWorkflow.runTrace (agents : List Agent) (initial_input : String) :
    Except String (List (String × PyValue)) :=
  runTraceAux agents.length agents 0 initial_input

/-- `SequentialWorkflow.run` (lines 19-107): the `results` list returned by
the loop, or the exception it lets escape. -/
def SequentialWorkflow.run (agents : List Agent) (initial_input : String) :
    Except String (List PyValue) :=
  (SequentialWorkflow.runTrace agents initial_input).map (List.map Prod.snd)

/-- The state built by `SequentialWorkflow.__init__` (lines 16-17): the
constructor only stores the agent list. -/
structure SequentialWorkflowState where
  agents : List Agent

/-- `SequentialWorkflow.__init__` (lines 16-17). Its body is the single
assignment `self.agents = agents`; it performs no validation and cannot
raise, so it always returns the stored state. -/
def SequentialWorkflow.init (agents : List Agent) : Except String SequentialWorkflowState :=
  .ok ⟨agents⟩

/-- The dictionary built by `ResearchToBlogOrchestrator.create_blog_from_topic`
(lines 236-247). -/
structure WorkflowResults where
  topic : String
  research_content : String
  research_metadata : List (String × String)
  blog_content : String
  blog_metadata : List (String × String)
  workflow_status : String
deriving DecidableEq, Repr

/-- `ResearchToBlogOrchestrator.create_blog_from_topic` (lines 191-250),
modelled with both agents already initialized: run the two-stage workflow,
then build the results dictionary. `results[0] if len(results) > 0 else None`
is `headD` with default `None`; `workflow_status` is always the literal
`"completed"`. An exception raised inside `workflow.run` propagates (there is
no `try`/`except` in this method). -/
def ResearchToBlogOrchestrator.create_blog_from_topic
    (topic : String) (research_agent blog_agent : Agent) :
    Except String WorkflowResults :=
  match SequentialWorkflow.run [research_agent, blog_agent] topic with
  | .error e => .error e
  | .ok results =>
    let research_result : PyValue := results.headD .none
    let blog_result : PyValue := (results.drop 1).headD .none
    .ok
      { topic := topic
        research_content := extract_content research_result
        research_metadata := extract_metadata research_result
        blog_content := extract_content blog_result
        blog_metadata := extract_metadata blog_result
        workflow_status := "completed" }

/-- `try: await agent.close() except: pass` — any exception from the body is
swallowed (`research_blog_orchestrator.py` lines 255-258 and 260-263). -/
def pyTryPass : Except String Unit → Except String Unit
  | .ok _ => .ok ()
  | .error _ => .ok ()

/-- `ResearchToBlogOrchestrator.cleanup` (lines 252-263). Each optional agent
is modelled by the outcome its `close()` call would have (`none` when the
agent attribute is still `None`); each close is wrapped in
`try`/`except: pass`. -/
def ResearchToBlogOrchestrator.cleanup
    (research_close blog_close : Option (Except String Unit)) : Except String Unit :=
  match research_close with
  | Option.none =>
    match blog_close with
    | Option.none => .ok ()
    | some b => pyTryPass b
  | some r =>
    match pyTryPass r with
    | .error e => .error e
    | .ok _ =>
      match blog_close with
      | Option.none => .ok ()
      | some b => pyTryPass b

/-- One intermediate step of the LangChain `AgentExecutor` as
`LangChainBlogAgent.run` inspects it: the tool name carried by `step[0]`
(`none` when `step[0]` has no `tool` attribute) and `str(step[1])`. -/
structure AgentStep where
  tool : Option String
  output : String
deriving DecidableEq, Repr

/-- The dictionary returned by `agent_executor.ainvoke`/`invoke`: the
`"output"` string and the `"intermediate_steps"` list. -/
structure AgentExecResult where
  output : String
  intermediate_steps : List AgentStep
deriving DecidableEq, Repr

/-- A metadata value in the `BlogResult.metadata` dict of
`langchain_blog_agent.py` (heterogeneous in Python). -/
inductive MetaValue where
  | str (s : String)
  | num (n : Nat)
  | steps (l : List AgentStep)
deriving DecidableEq, Repr

/-- The `BlogResult` class defined inside `LangChainBlogAgent.run` /
`sync_run`: a `text` string plus a `metadata` dict. -/
structure BlogResult where
  text : String
  metadata : List (String × MetaValue)
deriving DecidableEq, Repr

/-- Python's `pattern in s` substring test. -/
def containsSubstr (s pat : String) : Bool :=
  1 < (s.splitOn pat).length

/-- The output post-processing of `LangChainBlogAgent.run` (lines 224-237):
when the output looks like a tool description, the first substantial
(`len > 500`) output of a formatting tool among the intermediate steps
replaces it. -/
def pickOutput (output : String) (steps : List AgentStep) : String :=
  if containsSubstr output "The blog has been formatted" ||
      containsSubstr output "optimized for SEO" then
    match steps.find? (fun st =>
      (st.tool == some "format_blog_post" || st.tool == some "add_seo_elements") &&
        500 < st.output.length) with
    | some st => st.output
    | Option.none => output
  else output

/-- `LangChainBlogAgent.run` (`langchain_blog_agent.py` lines 202-265),
modelled with the executor already initialized; `ainvoke` is the underlying
transport call, whose raised exception is `Except.error (str e)`. The
`try`/`except` wraps the whole body, so the method always returns a
`BlogResult`; on failure its text is
`f"Error generating blog post: \x7bstr(e)\x7d"`. -/
def LangChainBlogAgent.run (ainvoke : String → Except String AgentExecResult)
    (input_text : String) : BlogResult :=
  match ainvoke input_text with
  | .ok result =>
    { text := pickOutput result.output result.intermediate_steps
      metadata := [("agent_type", .str "langchain"),
                   ("intermediate_steps", .steps result.intermediate_steps),
                   ("tool_calls", .num result.intermediate_steps.length)] }
  | .error e =>
    { text := "Error generating blog post: " ++ e
      metadata := [("error", .str e), ("agent_type", .str "langchain")] }

/-- `LangChainBlogAgent.sync_run` (`langchain_blog_agent.py` lines 267-312),
modelled with the executor already initialized; the success branch uses the
output unchanged, the failure branch mirrors `run`. -/
def LangChainBlogAgent.sync_run (invoke : String → Except String AgentExecResult)
    (input_text : String) : BlogResult :=
  match invoke input_text with
  | .ok result =>
    { text := result.output
      metadata := [("agent_type", .str "langchain"),
                   ("intermediate_steps", .steps result.intermediate_steps),
                   ("tool_calls", .num result.intermediate_steps.length)] }
  | .error e =>
    { text := "Error generating blog post: " ++ e
      metadata := [("error", .str e), ("agent_type", .str "langchain")] }

/-- A test agent that returns its input unchanged. -/
def echoAgent : Agent :=
  ⟨.plainRun, fun s => .ok (.str s)⟩

/-- A test agent that returns the fixed string `s`. -/
def constAgent (s : String) : Agent :=
  ⟨.plainRun, fun _ => .ok (.str s)⟩

/-- A test agent whose call raises an exception with text `e`. -/
def raisingAgent (e : String) : Agent :=
  ⟨.plainRun, fun _ => .error e⟩

/-- C7: normalizing a `None` raw reply yields the fixed text
`"No content generated"` and an empty metadata mapping. -/
theorem extract_none_reply :
    extract_content PyValue.none = "No content generated" ∧
      extract_metadata PyValue.none = [] :=
  ⟨rfl, rfl⟩

/-- C8: normalizing a plain string returns that very string with empty
metadata, so re-normalizing the text a normalization produced (re-wrapped as
a plain string) is a no-op: normalization is idempotent on its own text
output. -/
theorem extract_content_string_noop (s : String) (raw : PyValue) :
    extract_content (PyValue.str s) = s ∧
      extract_metadata (PyValue.str s) = [] ∧
      extract_content (PyValue.str (extract_content raw)) = extract_content raw :=
  ⟨rfl, rfl, rfl⟩

/-- C3 counterexample: `extract_content` tries the `text` attribute before
`content`, so an object exposing `text = "T"` and `content = "C"` normalizes
to `"T"`, not to the content-like value `"C"` the claim predicts. -/
theorem extract_content_prefers_text_counterexample :
    extract_content (PyValue.obj (some "T") (some "C") Option.none "r") = "T" ∧
      ("T" : String) ≠ "C" :=
  ⟨rfl, by decide⟩

/-- C3 amended: in `extract_content` the text-like field takes priority over
the content-like field — an object exposing both normalizes to the text-like
value — and an object exposing only a text-like field normalizes to it.
(Only the `get_response` branch of `SequentialWorkflow.run`, modelled as
`unwrapContentFirst`, prefers the content-like field.) -/
theorem extract_content_text_priority (t : String) (c : Option String)
    (m : Option (List (String × String))) (r : String) :
    extract_content (PyValue.obj (some t) c m r) = t ∧
      extract_content (PyValue.obj (some t) Option.none m r) = t :=
  ⟨rfl, rfl⟩

/-- C4 counterexample: constructing a `SequentialWorkflow` with an empty
agent list succeeds (the constructor only stores the list), and even
`run` on the empty pipeline returns an empty result list rather than
raising. -/
theorem empty_pipeline_construction_succeeds :
    SequentialWorkflow.init [] = Except.ok ⟨[]⟩ ∧
      SequentialWorkflow.run [] "topic" = Except.ok [] :=
  ⟨rfl, rfl⟩

/-- C4 amended: constructing a pipeline with an empty stage list is not an
error at all: `__init__` stores any list without validation, and `run` on an
empty pipeline returns the empty result list. -/
theorem init_never_fails (agents : List Agent) (topic : String) :
    SequentialWorkflow.init agents = Except.ok ⟨agents⟩ ∧
      SequentialWorkflow.run [] topic = Except.ok [] :=
  ⟨rfl, rfl⟩

/-- C5 counterexample: when the transport call raises `"boom"`, the adapter's
reply text is `"Error generating blog post: boom"`, which does not start
with the marker `"Error: "`. -/
theorem error_marker_counterexample :
    (LangChainBlogAgent.run (fun _ => Except.error "boom") "x").text =
        "Error generating blog post: boom" ∧
      List.isPrefixOf "Error: ".data
          (LangChainBlogAgent.run (fun _ => Except.error "boom") "x").text.data = false :=
  ⟨rfl, by decide⟩

/-- C5 amended: when the underlying transport call fails with exception text
`e`, both `run` and `sync_run` still return a `BlogResult` (the `try`/`except`
spans the whole body, so no exception propagates to the pipeline driver)
whose text starts with the fixed marker `"Error generating blog post: "`
followed by `e`. -/
theorem adapter_error_reply (ainvoke invoke : String → Except String AgentExecResult)
    (input e : String) :
    (ainvoke input = Except.error e →
      (LangChainBlogAgent.run ainvoke input).text = "Error generating blog post: " ++ e) ∧
    (invoke input = Except.error e →
      (LangChainBlogAgent.sync_run invoke input).text = "Error generating blog post: " ++ e) := by
  constructor
  · intro h
    simp [LangChainBlogAgent.run, h]
  · intro h
    simp [LangChainBlogAgent.sync_run, h]

/-- C5 amended, witness at a concrete failing transport. -/
theorem adapter_error_reply_witness :
    (LangChainBlogAgent.run (fun _ => Except.error "boom") "x").text =
        "Error generating blog post: " ++ "boom" ∧
      (LangChainBlogAgent.sync_run (fun _ => Except.error "boom") "x").text =
        "Error generating blog post: " ++ "boom" :=
  ⟨(adapter_error_reply (fun _ => Except.error "boom") (fun _ => Except.error "boom")
      "x" "boom").1 rfl,
   (adapter_error_reply (fun _ => Except.error "boom") (fun _ => Except.error "boom")
      "x" "boom").2 rfl⟩

/-- C9: the prompt-template application is a pure function of the previous
stage's text — two computations from equal texts yield byte-identical
strings, and the template is the fixed substitution
`promptHead ++ text ++ promptTail` with no conditional logic. -/
theorem blogPromptTemplate_deterministic (t1 t2 : String) (h : t1 = t2) :
    blogPromptTemplate t1 = blogPromptTemplate t2 ∧
      blogPromptTemplate t1 = promptHead ++ t1 ++ promptTail := by
  subst h
  exact ⟨rfl, rfl⟩

/-- C9 witness at a concrete text. -/
theorem blogPromptTemplate_deterministic_witness :
    blogPromptTemplate "Edge computing reduces latency." =
        blogPromptTemplate "Edge computing reduces latency." ∧
      blogPromptTemplate "Edge computing reduces latency." =
        promptHead ++ "Edge computing reduces latency." ++ promptTail :=
  blogPromptTemplate_deterministic "Edge computing reduces latency."
    "Edge computing reduces latency." rfl

/-- C10: `cleanup` never raises: for every combination of present/absent
agents and succeeding/raising `close()` calls, both closes are wrapped in
`try`/`except: pass`, so `cleanup` returns normally. -/
theorem cleanup_never_raises (research_close blog_close : Option (Except String Unit)) :
    ResearchToBlogOrchestrator.cleanup research_close blog_close = Except.ok () := by
  rcases research_close with _ | r
  · rcases blog_close with _ | b
    · rfl
    · rcases b with e | u <;> rfl
  · rcases r with e | u <;> rcases blog_close with _ | b
    · rfl
    · rcases b with e' | u' <;> rfl
    · rfl
    · rcases b with e' | u' <;> rfl

/-- Helper: a successful trace has one entry per remaining agent. -/
theorem runTraceAux_length (n : Nat) (rest : List Agent) :
    ∀ (i : Nat) (input : String) (tr : List (String × PyValue)),
      runTraceAux n rest i input = Except.ok tr → tr.length = rest.length := by
  induction rest with
  | nil =>
    intro i input tr h
    simp only [runTraceAux] at h
    cases h
    rfl
  | cons a rest ih =>
    intro i input tr h
    simp only [runTraceAux] at h
    split at h
    · cases h
    · split at h
      · cases h
      · rename_i result _ tr2 hrec
        cases h
        simp [ih _ _ _ hrec]

/-- Helper: from loop index 1 onward, `current_input` is never updated, so
every later stage is invoked on the same input the loop entered index 1
with. -/
theorem runTraceAux_input_const (n : Nat) (rest : List Agent) :
    ∀ (i : Nat) (input : String) (tr : List (String × PyValue)),
      1 ≤ i → runTraceAux n rest i input = Except.ok tr →
      ∀ (j : Nat) (hj : j < tr.length), (tr.get ⟨j, hj⟩).1 = input := by
  induction rest with
  | nil =>
    intro i input tr _ h j hj
    simp only [runTraceAux] at h
    cases h
    exact absurd hj (by simp)
  | cons a rest ih =>
    intro i input tr hi h j hj
    simp only [runTraceAux] at h
    split at h
    · cases h
    · rw [if_neg (by omega : ¬(i = 0 ∧ 1 < n))] at h
      split at h
      · cases h
      · rename_i result _ tr2 hrec
        cases h
        match j with
        | 0 => rfl
        | j + 1 => exact ih (i + 1) input tr2 (by omega) hrec j (by simpa using hj)

/-- Helper: each successful trace entry pairs the input the stage was called
on with the unwrapped value its agent returned on exactly that input. -/
theorem runTraceAux_spec (n : Nat) (rest : List Agent) :
    ∀ (i : Nat) (input : String) (tr : List (String × PyValue)),
      runTraceAux n rest i input = Except.ok tr →
      ∀ (j : Nat) (hj : j < tr.length) (hj2 : j < rest.length),
        ∃ raw, (rest.get ⟨j, hj2⟩).behavior (tr.get ⟨j, hj⟩).1 = Except.ok raw ∧
          (tr.get ⟨j, hj⟩).2 = unwrapResult (rest.get ⟨j, hj2⟩).kind raw := by
  induction rest with
  | nil =>
    intro i input tr h j hj hj2
    exact absurd hj2 (by simp)
  | cons a rest ih =>
    intro i input tr h j hj hj2
    simp only [runTraceAux] at h
    split at h
    · cases h
    · rename_i result hstep
      split at h
      · cases h
      · rename_i tr2 hrec
        cases h
        simp only [runStep] at hstep
        split at hstep
        · cases hstep
        · rename_i raw hb
          cases hstep
          match j with
          | 0 => exact ⟨raw, hb, rfl⟩
          | j + 1 =>
            exact ih _ _ _ hrec j (by simpa using hj) (by simpa using hj2)

/-- Helper: when no agent in the list ever raises, the loop completes and
returns a trace. -/
theorem runTraceAux_total (n : Nat) (rest : List Agent) :
    ∀ (i : Nat) (input : String),
      (∀ a ∈ rest, ∀ s, ∃ v, a.behavior s = Except.ok v) →
      ∃ tr, runTraceAux n rest i input = Except.ok tr := by
  induction rest with
  | nil => intro i input _; exact ⟨[], rfl⟩
  | cons a rest ih =>
    intro i input hok
    obtain ⟨v, hv⟩ := hok a (List.mem_cons_self a rest) input
    obtain ⟨tr, htr⟩ := ih (i + 1)
      (if i = 0 ∧ 1 < n then blogPromptTemplate (unwrapTextFirst (unwrapResult a.kind v))
       else input)
      (fun b hb s => hok b (List.mem_cons_of_mem a hb) s)
    refine ⟨(input, unwrapResult a.kind v) :: tr, ?_⟩
    simp only [runTraceAux, runStep, hv, htr]

/-- C1 counterexample: with a first stage that raises `"boom"`, both
`SequentialWorkflow.run` and `create_blog_from_topic` let the exception
escape instead of returning a result — no failed reply is recorded for the
stage and no `Failed`-status result exists. -/
theorem run_does_not_catch_counterexample :
    SequentialWorkflow.run [raisingAgent "boom", echoAgent] "t" =
        Except.error "boom" ∧
      ResearchToBlogOrchestrator.create_blog_from_topic "t" (raisingAgent "boom")
          echoAgent = Except.error "boom" :=
  ⟨rfl, rfl⟩

/-- C1 amended: `SequentialWorkflow.run` and `create_blog_from_topic` contain
no `try`/`except`: an exception raised by a stage propagates to the caller
unchanged (whichever of the two stages raises), later stages are not invoked
(for a failing first stage the outcome is the same for every second agent,
which is a free variable here), no failed reply is recorded, and the only
status the orchestrator ever attaches to a returned result is
`"completed"`. -/
theorem run_propagates_stage_exception (research blog : Agent) (topic e : String) :
    (research.behavior topic = Except.error e →
      SequentialWorkflow.run [research, blog] topic = Except.error e ∧
        ResearchToBlogOrchestrator.create_blog_from_topic topic research blog =
          Except.error e) ∧
    (∀ raw, research.behavior topic = Except.ok raw →
      blog.behavior
          (blogPromptTemplate (unwrapTextFirst (unwrapResult research.kind raw))) =
        Except.error e →
      SequentialWorkflow.run [research, blog] topic = Except.error e) ∧
    (∀ r, ResearchToBlogOrchestrator.create_blog_from_topic topic research blog =
        Except.ok r → r.workflow_status = "completed") := by
  refine ⟨?_, ?_, ?_⟩
  · intro h
    have hrun : SequentialWorkflow.run [research, blog] topic = Except.error e := by
      simp [SequentialWorkflow.run, SequentialWorkflow.runTrace, runTraceAux,
        runStep, Except.map, h]
    exact ⟨hrun, by
      simp [ResearchToBlogOrchestrator.create_blog_from_topic, hrun]⟩
  · intro raw h1 h2
    simp [SequentialWorkflow.run, SequentialWorkflow.runTrace, runTraceAux,
      runStep, Except.map, h1, h2]
  · intro r h
    unfold ResearchToBlogOrchestrator.create_blog_from_topic at h
    split at h
    · cases h
    · cases h
      rfl

/-- C1 amended, witness: concrete run in which the first stage raises. -/
theorem run_propagates_stage_exception_witness :
    SequentialWorkflow.run [raisingAgent "boom", echoAgent] "t" =
        Except.error "boom" ∧
      ResearchToBlogOrchestrator.create_blog_from_topic "t" (raisingAgent "boom")
          echoAgent = Except.error "boom" :=
  (run_propagates_stage_exception (raisingAgent "boom") echoAgent "t" "boom").1 rfl

/-- C2 counterexample: in the three-stage run below, stage 0 returns `"A"`
and stage 1 returns `"B"`, yet the echoing stage 2 receives
`blogPromptTemplate "A"` — the template applied to stage 0's output — and
not `blogPromptTemplate "B"`, which the claim predicts and which is a
different string. -/
theorem stage2_input_counterexample :
    SequentialWorkflow.run [constAgent "A", constAgent "B", echoAgent] "t" =
        Except.ok [PyValue.str "A", PyValue.str "B",
          PyValue.str (blogPromptTemplate "A")] ∧
      blogPromptTemplate "A" ≠ blogPromptTemplate "B" :=
  ⟨rfl, by decide⟩

/-- C2 amended: stage 0 is invoked on the topic verbatim, and every stage
`i ≥ 1` — not only stage 1 — is invoked on the blog prompt template applied
to the normalized text of stage 0: `current_input` is updated only after
stage 0, so stages beyond the second do not receive the previous stage's
output. -/
theorem stage_input_wiring (agents : List Agent) (topic : String)
    (tr : List (String × PyValue))
    (h : SequentialWorkflow.runTrace agents topic = Except.ok tr) :
    tr.length = agents.length ∧
    (∀ h0 : 0 < tr.length, (tr.get ⟨0, h0⟩).1 = topic) ∧
    (∀ (i : Nat) (hi : i < tr.length), 1 ≤ i → ∀ h0 : 0 < tr.length,
      (tr.get ⟨i, hi⟩).1 =
        blogPromptTemplate (unwrapTextFirst (tr.get ⟨0, h0⟩).2)) := by
  refine ⟨runTraceAux_length agents.length agents 0 topic tr h, ?_, ?_⟩
  · intro h0
    cases agents with
    | nil =>
      simp only [SequentialWorkflow.runTrace, runTraceAux] at h
      cases h
      exact absurd h0 (by simp)
    | cons a rest =>
      simp only [SequentialWorkflow.runTrace, runTraceAux] at h
      split at h
      · cases h
      · split at h
        · cases h
        · cases h
          rfl
  · intro i hi h1 h0
    cases agents with
    | nil =>
      simp only [SequentialWorkflow.runTrace, runTraceAux] at h
      cases h
      exact absurd hi (by simp)
    | cons a rest =>
      simp only [SequentialWorkflow.runTrace, runTraceAux] at h
      split at h
      · cases h
      · rename_i result hstep
        split at h
        · cases h
        · rename_i tr2 hrec
          cases h
          obtain ⟨j, rfl⟩ : ∃ j, i = j + 1 := ⟨i - 1, by omega⟩
          have hlen2 := runTraceAux_length _ _ _ _ _ hrec
          have hj2 : j < tr2.length := by simpa using hi
          have hn : 1 < (a :: rest).length := by
            simp only [List.length_cons]
            omega
          rw [if_pos ⟨by trivial, hn⟩] at hrec
          exact runTraceAux_input_const _ _ _ _ _ (le_refl 1) hrec j hj2

/-- C2 amended, witness: in the concrete three-stage run of the
counterexample, stage 2's recorded input is the template applied to stage
0's normalized text. -/
theorem stage_input_wiring_witness :
    ([("t", PyValue.str "A"),
        (blogPromptTemplate "A", PyValue.str "B"),
        (blogPromptTemplate "A", PyValue.str (blogPromptTemplate "A"))].get
          ⟨2, by decide⟩).1 =
      blogPromptTemplate (unwrapTextFirst
        (([("t", PyValue.str "A"),
            (blogPromptTemplate "A", PyValue.str "B"),
            (blogPromptTemplate "A", PyValue.str (blogPromptTemplate "A"))].get
              ⟨0, by decide⟩).2)) :=
  (stage_input_wiring [constAgent "A", constAgent "B", echoAgent] "t"
      [("t", PyValue.str "A"),
        (blogPromptTemplate "A", PyValue.str "B"),
        (blogPromptTemplate "A", PyValue.str (blogPromptTemplate "A"))]
      rfl).2.2 2 (by decide) (by decide) (by decide)

/-- C6: when no configured agent's call raises, `run(topic)` returns a result
list with exactly one entry per configured stage, in stage order: entry `i`
is the unwrapped reply that stage `i`'s agent returned on the input it was
invoked with. -/
theorem run_ok_replies (agents : List Agent) (topic : String)
    (hne : agents ≠ [])
    (hok : ∀ a ∈ agents, ∀ s, ∃ v, a.behavior s = Except.ok v) :
    ∃ results, SequentialWorkflow.run agents topic = Except.ok results ∧
      results.length = agents.length ∧
      ∀ (i : Nat) (hi : i < results.length) (hi2 : i < agents.length),
        ∃ input raw, (agents.get ⟨i, hi2⟩).behavior input = Except.ok raw ∧
          results.get ⟨i, hi⟩ = unwrapResult (agents.get ⟨i, hi2⟩).kind raw := by
  obtain ⟨tr, htr⟩ := runTraceAux_total agents.length agents 0 topic hok
  refine ⟨tr.map Prod.snd, ?_, ?_, ?_⟩
  · simp [SequentialWorkflow.run, SequentialWorkflow.runTrace, Except.map, htr]
  · simp [runTraceAux_length _ _ _ _ _ htr]
  · intro i hi hi2
    have hj : i < tr.length := by simpa using hi
    obtain ⟨raw, hb, hval⟩ :=
      runTraceAux_spec agents.length agents 0 topic tr htr i hj hi2
    refine ⟨(tr.get ⟨i, hj⟩).1, raw, hb, ?_⟩
    rw [← hval]
    simp [List.get_eq_getElem, List.getElem_map]

/-- C6 witness: a concrete one-stage pipeline whose agent never raises. -/
theorem run_ok_replies_witness :
    ∃ results, SequentialWorkflow.run [echoAgent] "t" = Except.ok results ∧
      results.length = [echoAgent].length ∧
      ∀ (i : Nat) (hi : i < results.length) (hi2 : i < [echoAgent].length),
        ∃ input raw, ([echoAgent].get ⟨i, hi2⟩).behavior input = Except.ok raw ∧
          results.get ⟨i, hi⟩ = unwrapResult ([echoAgent].get ⟨i, hi2⟩).kind raw :=
  run_ok_replies [echoAgent] "t" (by simp)
    (by
      intro a ha s
      rw [List.mem_singleton] at ha
      subst ha
      exact ⟨PyValue.str s, rfl⟩)
